import Mathlib

/-!
Verification of the Support/Resistance breakout strategy core
(`s_r_strategy.py` of the Zerodha-Algo-Trading repository).

The Python class `SupportResistanceStrategy` is embedded shallowly:
its mutable attributes become the fields of the `Strategy` structure,
and every method becomes a pure function from a `Strategy` (plus the
method's arguments) to its return value together with the updated
`Strategy`.  Python `float`s are modelled as `ℚ` (the comparisons and
arithmetic in the source are ordinary field operations), `int` as `ℤ`,
and Python `None` as `Option.none`.  Wall-clock reads
(`datetime.now().isoformat()`) are modelled by threading an explicit
`now : String` argument into the operations that perform them.
-/

/-- A price observation, the dict built by `add_price_data`
(`{'high': …, 'low': …, 'close': …, 'timestamp': …}`). -/
structure PricePoint where
  high : ℚ
  low : ℚ
  close : ℚ
  timestamp : String
deriving DecidableEq, Repr

/-- The `active_trade` dict of the strategy.  In Python every value is
`None`-able (and `quantity` starts at `0`); the same shape is kept here. -/
structure Trade where
  is_active : Bool
  direction : Option String
  entry_price : Option ℚ
  entry_time : Option String
  quantity : ℤ
  order_id : Option String
  target_price : Option ℚ
  stop_price : Option ℚ
deriving DecidableEq, Repr

/-- The `active_trade` dict as initialised in `__init__`, in
`exit_trade` and in `reset_strategy`. -/
def initTrade : Trade :=
  { is_active := false
    direction := none
    entry_price := none
    entry_time := none
    quantity := 0
    order_id := none
    target_price := none
    stop_price := none }

/-- The trade-summary dict returned by `exit_trade`. -/
structure TradeSummary where
  symbol : String
  direction : Option String
  entry_price : Option ℚ
  exit_price : ℚ
  quantity : ℤ
  entry_time : Option String
  exit_time : String
  exit_reason : String
  pnl : ℚ
  pnl_percent : ℚ
  entry_order_id : Option String
  exit_order_id : Option String
deriving DecidableEq, Repr

/-- The mutable state of one `SupportResistanceStrategy` instance. -/
structure Strategy where
  symbol : String
  lookback_period : ℕ
  profit_target : ℚ
  stop_loss : ℚ
  support_level : Option ℚ
  resistance_level : Option ℚ
  levels_locked : Bool
  active_trade : Trade
  price_data : List PricePoint
  max_data_points : ℕ
deriving DecidableEq, Repr

/-- `__init__`.  The Python defaults are `lookback_period=10`,
`profit_target=0.03`, `stop_loss=0.01`; `max_data_points` is always 50. -/
def initStrategy (symbol : String) (lookback_period : ℕ) (profit_target : ℚ)
    (stop_loss : ℚ) : Strategy :=
  { symbol := symbol.toUpper
    lookback_period := lookback_period
    profit_target := profit_target
    stop_loss := stop_loss
    support_level := none
    resistance_level := none
    levels_locked := false
    active_trade := initTrade
    price_data := []
    max_data_points := 50 }

/-- `add_price_data(high, low, close, timestamp=None)`.  A `None`
timestamp defaults to the current time (`now`).  The point is appended
and, when the buffer exceeds `max_data_points`, only the last
`max_data_points` entries are kept (`self.price_data[-self.max_data_points:]`). -/
def add_price_data (s : Strategy) (high low close : ℚ) (timestamp : Option String)
    (now : String) : Strategy :=
  let ts := timestamp.getD now
  let point : PricePoint := { high := high, low := low, close := close, timestamp := ts }
  let pd := s.price_data ++ [point]
  let pd := if pd.length > s.max_data_points then pd.drop (pd.length - s.max_data_points) else pd
  { s with price_data := pd }

/-- The loop body of `detect_support_resistance` for the swing-high
test at index `i`: `current['high'] > prev_candle['high'] and
current['high'] > next_candle['high']` yields `current['high']`. -/
def swingHighAt (recent : List PricePoint) (i : ℕ) : Option ℚ :=
  match recent[i-1]?, recent[i]?, recent[i+1]? with
  | some prev_candle, some current, some next_candle =>
      if current.high > prev_candle.high ∧ current.high > next_candle.high then
        some current.high
      else none
  | _, _, _ => none

/-- The loop body of `detect_support_resistance` for the swing-low
test at index `i`. -/
def swingLowAt (recent : List PricePoint) (i : ℕ) : Option ℚ :=
  match recent[i-1]?, recent[i]?, recent[i+1]? with
  | some prev_candle, some current, some next_candle =>
      if current.low < prev_candle.low ∧ current.low < next_candle.low then
        some current.low
      else none
  | _, _, _ => none

/-- The `swing_highs` list collected by the
`for i in range(1, len(recent) - 1)` loop of `detect_support_resistance`. -/
def swingHighs (recent : List PricePoint) : List ℚ :=
  ((List.range (recent.length - 1)).filter (fun i => 1 ≤ i)).filterMap (swingHighAt recent)

/-- The `swing_lows` list collected by the same loop. -/
def swingLows (recent : List PricePoint) : List ℚ :=
  ((List.range (recent.length - 1)).filter (fun i => 1 ≤ i)).filterMap (swingLowAt recent)

/-- `detect_support_resistance()`.  With fewer than `lookback_period + 2`
buffered points it returns `(None, None)` (the source logs the
"Insufficient data points" warning there — this pair is its encoding of
the `InsufficientData` failure).  Otherwise it scans the last
`lookback_period + 2` points (`self.price_data[-self.lookback_period-2:]`)
and returns `(min(swing_lows), max(swing_highs))`, each `None` when the
respective list is empty. -/
def detect_support_resistance (s : Strategy) : Option ℚ × Option ℚ :=
  if s.price_data.length < s.lookback_period + 2 then (none, none)
  else
    let recent := s.price_data.drop (s.price_data.length - (s.lookback_period + 2))
    ((swingLows recent).min?, (swingHighs recent).max?)

/-- `update_levels()`.  Returns the Python `bool` result together with
the updated state.  Locked ⇒ `(False, unchanged)`; detector missing a
level ⇒ `(False, unchanged)`; `support >= resistance` ⇒ `(False,
unchanged)`; otherwise the two levels are stored and `True` returned. -/
def update_levels (s : Strategy) : Bool × Strategy :=
  if s.levels_locked then (false, s)
  else
    match detect_support_resistance s with
    | (some support, some resistance) =>
        if support ≥ resistance then (false, s)
        else (true, { s with support_level := some support, resistance_level := some resistance })
    | _ => (false, s)

/-- `check_breakout_signal(current_price)`. -/
def check_breakout_signal (s : Strategy) (current_price : ℚ) : Option String :=
  if s.active_trade.is_active then none
  else
    match s.support_level, s.resistance_level with
    | some support, some resistance =>
        if current_price > resistance then some "long"
        else if current_price < support then some "short"
        else none
    | _, _ => none

/-- `enter_trade(direction, entry_price, quantity, order_id=None)`.
An active trade ⇒ `(False, unchanged)`.  Otherwise target/stop follow
the `direction == 'long'` branch or the `else: # short` branch, the
trade dict is replaced, and `levels_locked` is set. -/
def enter_trade (s : Strategy) (direction : String) (entry_price : ℚ) (quantity : ℤ)
    (order_id : Option String) (now : String) : Bool × Strategy :=
  if s.active_trade.is_active then (false, s)
  else
    let tp :=
      if direction = "long" then
        (entry_price * (1 + s.profit_target), entry_price * (1 - s.stop_loss))
      else
        (entry_price * (1 - s.profit_target), entry_price * (1 + s.stop_loss))
    (true,
      { s with
        active_trade :=
          { is_active := true
            direction := some direction
            entry_price := some entry_price
            entry_time := some now
            quantity := quantity
            order_id := order_id
            target_price := some tp.1
            stop_price := some tp.2 }
        levels_locked := true })

/-- `check_exit_conditions(current_price)`.  When a trade is active its
`target_price` and `stop_price` were set by `enter_trade`, so the
wildcard branch (where Python would raise comparing against `None`) is
unreachable through the public operations; it is mapped to `none`. -/
def check_exit_conditions (s : Strategy) (current_price : ℚ) : Option String :=
  if s.active_trade.is_active = false then none
  else
    match s.active_trade.target_price, s.active_trade.stop_price with
    | some target_price, some stop_price =>
        if s.active_trade.direction = some "long" then
          if current_price ≥ target_price then some "profit"
          else if current_price ≤ stop_price then some "loss"
          else none
        else
          if current_price ≤ target_price then some "profit"
          else if current_price ≥ stop_price then some "loss"
          else none
    | _, _ => none

/-- Python's `round` (banker's rounding, round-half-to-even) on a
rational, to an integer. -/
def roundHalfEven (q : ℚ) : ℤ :=
  let f := ⌊q⌋
  let r := q - f
  if r < 1/2 then f
  else if 1/2 < r then f + 1
  else if f % 2 = 0 then f else f + 1

/-- `round(x, 2)`: round to two decimal places. -/
def round2 (q : ℚ) : ℚ := (roundHalfEven (q * 100) : ℚ) / 100

/-- `exit_trade(exit_price, exit_reason, exit_order_id=None)`.  With no
active trade the source returns the empty dict `{}` (modelled as
`none`) and touches nothing.  Otherwise P&L is computed from the
stored entry price / quantity / direction (`'long'` vs the `else:
 # short` branch), rounded to two decimals in the summary, and the
trade is reset, levels unlocked and cleared.  An active trade always
has `entry_price` set (placed there by `enter_trade`); the `none`
branch for it models the unreachable case where Python would raise. -/
def exit_trade (s : Strategy) (exit_price : ℚ) (exit_reason : String)
    (exit_order_id : Option String) (now : String) : Option TradeSummary × Strategy :=
  if s.active_trade.is_active = false then (none, s)
  else
    match s.active_trade.entry_price with
    | none => (none, s)
    | some entry_price =>
      let quantity := s.active_trade.quantity
      let direction := s.active_trade.direction
      let pq :=
        if direction = some "long" then
          ((exit_price - entry_price) * quantity,
            (exit_price - entry_price) / entry_price * 100)
        else
          ((entry_price - exit_price) * quantity,
            (entry_price - exit_price) / entry_price * 100)
      let trade_summary : TradeSummary :=
        { symbol := s.symbol
          direction := direction
          entry_price := some entry_price
          exit_price := exit_price
          quantity := quantity
          entry_time := s.active_trade.entry_time
          exit_time := now
          exit_reason := exit_reason
          pnl := round2 pq.1
          pnl_percent := round2 pq.2
          entry_order_id := s.active_trade.order_id
          exit_order_id := exit_order_id }
      (some trade_summary,
        { s with
          active_trade := initTrade
          levels_locked := false
          support_level := none
          resistance_level := none })

/-- `reset_strategy()`. -/
def reset_strategy (s : Strategy) : Strategy :=
  { s with
    support_level := none
    resistance_level := none
    levels_locked := false
    active_trade := initTrade
    price_data := [] }

/-- The state-mutating operations of the strategy instance
(`check_breakout_signal`, `check_exit_conditions` and `get_status` only
read the state, so a sequence of API calls mutates the state exactly
through these). -/
inductive StrategyOp where
  | ingest (high low close : ℚ) (timestamp : Option String) (now : String)
  | refreshLevels
  | enter (direction : String) (entry_price : ℚ) (quantity : ℤ)
      (order_id : Option String) (now : String)
  | exitTrade (exit_price : ℚ) (exit_reason : String)
      (exit_order_id : Option String) (now : String)
  | reset
deriving DecidableEq, Repr

/-- State transition of one operation (return values discarded). -/
def applyOp (s : Strategy) : StrategyOp → Strategy
  | .ingest high low close ts now => add_price_data s high low close ts now
  | .refreshLevels => (update_levels s).2
  | .enter d ep q oid now => (enter_trade s d ep q oid now).2
  | .exitTrade ep r oid now => (exit_trade s ep r oid now).2
  | .reset => reset_strategy s

/-- The ordering invariant of the stored levels: whenever both are
present, support is strictly below resistance. -/
def levelsOrdered (s : Strategy) : Prop :=
  ∀ su r, s.support_level = some su → s.resistance_level = some r → su < r

/-- The ingest operation carrying a given price point. -/
def ingestOf (p : PricePoint) : StrategyOp :=
  .ingest p.high p.low p.close (some p.timestamp) p.timestamp

/-- A concrete price point for the witness scenarios. -/
def mkPoint (high low close : ℚ) : PricePoint :=
  { high := high, low := low, close := close, timestamp := "t" }

/-- Twelve concrete candles whose unique extreme swing high is 2515 and
extreme swing low is 2480 (the breakout scenario of the spec). -/
def scenarioPoints : List PricePoint :=
  [mkPoint 2500 2490 2495, mkPoint 2505 2485 2500, mkPoint 2515 2495 2510,
   mkPoint 2510 2480 2485, mkPoint 2505 2482 2500, mkPoint 2508 2488 2505,
   mkPoint 2506 2486 2500, mkPoint 2509 2489 2505, mkPoint 2507 2487 2500,
   mkPoint 2510 2490 2505, mkPoint 2508 2488 2500, mkPoint 2509 2489 2505]

/-- A default-parameter instance (`lookback_period=10`,
`profit_target=0.03`, `stop_loss=0.01`) fed the twelve scenario candles. -/
def scenarioStrategy : Strategy :=
  (scenarioPoints.map ingestOf).foldl applyOp (initStrategy "reliance" 10 (3/100) (1/100))

/-- The scenario instance after `update_levels` stored
support = 2480 and resistance = 2515. -/
def scenarioWithLevels : Strategy := (update_levels scenarioStrategy).2

/-- A default-parameter instance holding an active long trade entered
at 100 with quantity 10 (target 103, stop 99). -/
def sampleLong : Strategy :=
  (enter_trade (initStrategy "X" 10 (3/100) (1/100)) "long" 100 10 none "t0").2

/-- A default-parameter instance holding an active short trade entered
at 100 with quantity 10 (target 97, stop 101). -/
def sampleShort : Strategy :=
  (enter_trade (initStrategy "X" 10 (3/100) (1/100)) "short" 100 10 none "t0").2

/-- A default-parameter instance holding an active long trade entered
at 100 with quantity 1. -/
def sampleLongQ1 : Strategy :=
  (enter_trade (initStrategy "X" 10 (3/100) (1/100)) "long" 100 1 none "t0").2

/-- An instance holding an active trade with the unvalidated direction
string "buy", entered at 100 with quantity 10. -/
def sampleBuy : Strategy :=
  (enter_trade (initStrategy "X" 10 (3/100) (1/100)) "buy" 100 10 none "t0").2

/-! ## Helper lemmas -/

/-- While the levels are locked, `update_levels` is a complete no-op
returning `False`. -/
theorem update_levels_of_locked (s : Strategy) (h : s.levels_locked = true) :
    update_levels s = (false, s) := by
  simp [update_levels, h]

/-- A run of `refreshLevels` operations leaves a locked state untouched. -/
theorem foldl_refreshLevels_of_locked (s : Strategy) (h : s.levels_locked = true)
    (ops : List StrategyOp) (hops : ∀ op ∈ ops, op = StrategyOp.refreshLevels) :
    ops.foldl applyOp s = s := by
  induction ops with
  | nil => rfl
  | cons op rest ih =>
      have hop := hops op (List.mem_cons_self op rest)
      subst hop
      have : applyOp s StrategyOp.refreshLevels = s := by
        simp [applyOp, update_levels_of_locked s h]
      rw [List.foldl_cons, this]
      exact ih fun op hm => hops op (List.mem_cons_of_mem _ hm)

/-! ## Claim theorems -/

/-- C1: `check_exit_conditions` returns `none` when no trade is active;
for an active long trade it returns `"profit"` when the price has
reached the target (checked first), else `"loss"` when it has reached
the stop, else `none`; for an active short trade the comparisons are
mirrored, target again checked first. -/
theorem check_exit_conditions_spec (s : Strategy) (p : ℚ) :
    (s.active_trade.is_active = false → check_exit_conditions s p = none) ∧
    (∀ t st, s.active_trade.is_active = true →
      s.active_trade.direction = some "long" →
      s.active_trade.target_price = some t → s.active_trade.stop_price = some st →
      check_exit_conditions s p =
        if p ≥ t then some "profit" else if p ≤ st then some "loss" else none) ∧
    (∀ t st, s.active_trade.is_active = true →
      s.active_trade.direction = some "short" →
      s.active_trade.target_price = some t → s.active_trade.stop_price = some st →
      check_exit_conditions s p =
        if p ≤ t then some "profit" else if p ≥ st then some "loss" else none) := by
  refine ⟨fun h => by simp [check_exit_conditions, h], ?_, ?_⟩ <;>
    · intro t st ha hd ht hst
      simp [check_exit_conditions, ha, hd, ht, hst]

/-- Witness for C1 at the monitoring scenario of the spec: an active
long trade with target 103 and stop 99. -/
theorem check_exit_conditions_spec_witness :
    check_exit_conditions sampleLong 103 = some "profit" ∧
    check_exit_conditions sampleLong 99 = some "loss" ∧
    check_exit_conditions sampleLong 101 = none := by
  refine ⟨?_, ?_, ?_⟩ <;>
    · rw [(check_exit_conditions_spec sampleLong _).2.1 103 99
        (by decide) (by decide)
        (by norm_num [sampleLong, enter_trade, initStrategy, initTrade])
        (by norm_num [sampleLong, enter_trade, initStrategy, initTrade])]
      norm_num

/-- C3: with no active trade, `enter_trade` succeeds, stores the trade
as active with the given direction, entry price, quantity and order
id, locks the levels, and computes target/stop by the long formulas
for `"long"` and the mirrored formulas for `"short"`. -/
theorem enter_trade_spec (s : Strategy) (direction : String) (entry_price : ℚ)
    (quantity : ℤ) (order_id : Option String) (now : String)
    (h : s.active_trade.is_active = false) :
    (enter_trade s direction entry_price quantity order_id now).1 = true ∧
    (enter_trade s direction entry_price quantity order_id now).2.active_trade.is_active = true ∧
    (enter_trade s direction entry_price quantity order_id now).2.active_trade.direction
      = some direction ∧
    (enter_trade s direction entry_price quantity order_id now).2.active_trade.entry_price
      = some entry_price ∧
    (enter_trade s direction entry_price quantity order_id now).2.active_trade.quantity
      = quantity ∧
    (enter_trade s direction entry_price quantity order_id now).2.active_trade.order_id
      = order_id ∧
    (enter_trade s direction entry_price quantity order_id now).2.levels_locked = true ∧
    (direction = "long" →
      (enter_trade s direction entry_price quantity order_id now).2.active_trade.target_price
        = some (entry_price * (1 + s.profit_target)) ∧
      (enter_trade s direction entry_price quantity order_id now).2.active_trade.stop_price
        = some (entry_price * (1 - s.stop_loss))) ∧
    (direction = "short" →
      (enter_trade s direction entry_price quantity order_id now).2.active_trade.target_price
        = some (entry_price * (1 - s.profit_target)) ∧
      (enter_trade s direction entry_price quantity order_id now).2.active_trade.stop_price
        = some (entry_price * (1 + s.stop_loss))) := by
  by_cases hd : direction = "long" <;> simp [enter_trade, h, hd]

/-- Witness for C3: entering long at 100 on a fresh instance yields
target 103 and stop 99. -/
theorem enter_trade_spec_witness :
    (enter_trade (initStrategy "X" 10 (3/100) (1/100)) "long" 100 10 none "t0").1 = true ∧
    (enter_trade (initStrategy "X" 10 (3/100) (1/100)) "long" 100 10 none "t0").2.active_trade.target_price
      = some (100 * (1 + (3/100 : ℚ))) := by
  have h := enter_trade_spec (initStrategy "X" 10 (3/100) (1/100)) "long" 100 10 none "t0"
    (by decide)
  exact ⟨h.1, (h.2.2.2.2.2.2.2.1 rfl).1⟩

/-- C9: `enter_trade` with an active trade fails (returns `False`) and
`exit_trade` with no active trade fails (returns the empty summary);
in both cases the entire strategy state is returned unchanged. -/
theorem trade_precondition_failures (s : Strategy) (direction : String)
    (entry_price exit_price : ℚ) (quantity : ℤ)
    (order_id exit_order_id : Option String) (now now2 exit_reason : String) :
    (s.active_trade.is_active = true →
      enter_trade s direction entry_price quantity order_id now = (false, s)) ∧
    (s.active_trade.is_active = false →
      exit_trade s exit_price exit_reason exit_order_id now2 = (none, s)) := by
  constructor <;> intro h <;> simp [enter_trade, exit_trade, h]

/-- Witness for C9: entering on `sampleLong` (active trade) fails and
exiting a fresh instance (no trade) fails, both without state change. -/
theorem trade_precondition_failures_witness :
    enter_trade sampleLong "long" 50 1 none "t2" = (false, sampleLong) ∧
    exit_trade (initStrategy "X" 10 (3/100) (1/100)) 50 "manual" none "t2"
      = (none, initStrategy "X" 10 (3/100) (1/100)) := by
  exact ⟨(trade_precondition_failures sampleLong "long" 50 50 1 none none "t2" "t2" "m").1
      (by decide),
    (trade_precondition_failures (initStrategy "X" 10 (3/100) (1/100)) "long" 50 50 1 none none
      "t2" "t2" "manual").2 (by decide)⟩

/-- C6: `check_breakout_signal` returns `none` when a trade is active
or a level is absent (it is a total function, so it never raises);
otherwise it signals `"long"` when the price exceeds resistance —
this comparison made first — else `"short"` when the price is below
support, else `none`. -/
theorem check_breakout_signal_spec (s : Strategy) (p : ℚ) :
    (s.active_trade.is_active = true → check_breakout_signal s p = none) ∧
    (s.support_level = none ∨ s.resistance_level = none →
      check_breakout_signal s p = none) ∧
    (∀ su r, s.active_trade.is_active = false → s.support_level = some su →
      s.resistance_level = some r →
      check_breakout_signal s p =
        if p > r then some "long" else if p < su then some "short" else none) := by
  refine ⟨fun h => by simp [check_breakout_signal, h], fun h => ?_, fun su r ha hsu hr => ?_⟩
  · rcases h with h | h <;>
      by_cases hact : s.active_trade.is_active <;>
        simp [check_breakout_signal, hact, h]
  · simp [check_breakout_signal, ha, hsu, hr]

/-- Witness for C6 at the breakout scenario of the spec: with support
2480 / resistance 2515 and no active trade, 2520 breaks out long and
2470 breaks out short. -/
theorem check_breakout_signal_spec_witness :
    check_breakout_signal scenarioWithLevels 2520 = some "long" ∧
    check_breakout_signal scenarioWithLevels 2470 = some "short" := by
  constructor
  · rw [(check_breakout_signal_spec scenarioWithLevels 2520).2.2 2480 2515
      (by decide) (by decide) (by decide)]
    decide
  · rw [(check_breakout_signal_spec scenarioWithLevels 2470).2.2 2480 2515
      (by decide) (by decide) (by decide)]
    decide

/-- C2 counterexample: the summary's `pnl` is rounded to two decimal
places, so it does not equal `(exit_price − entry_price) × quantity`
in general.  For a long trade entered at 100 with quantity 1, exiting
at 100.001 the formula gives 0.001 while the summary records 0. -/
theorem exit_trade_pnl_counterexample :
    Option.map TradeSummary.pnl
        (exit_trade sampleLongQ1 (100001/1000) "manual" none "t1").1 = some 0 ∧
    sampleLongQ1.active_trade.direction = some "long" ∧
    sampleLongQ1.active_trade.entry_price = some 100 ∧
    sampleLongQ1.active_trade.quantity = 1 ∧
    (((100001:ℚ)/1000 - 100) * 1 ≠ 0) := by
  refine ⟨?_, by decide, ?_, by decide, by norm_num⟩
  · norm_num [exit_trade, sampleLongQ1, enter_trade, initStrategy, initTrade,
      round2, roundHalfEven]
  · norm_num [sampleLongQ1, enter_trade, initStrategy, initTrade]

/-- C2 (amended): a successful `exit_trade` returns a summary whose
`pnl` and `pnl_percent` are the long formulas
`(exit_price − entry_price) × quantity` and
`(exit_price − entry_price)/entry_price × 100` — or the sign-mirrored
short formulas — each rounded to two decimal places; and it resets the
trade to the inactive initial dict, unlocks the levels and clears both
to absent. -/
theorem exit_trade_spec (s : Strategy) (exit_price : ℚ) (exit_reason : String)
    (exit_order_id : Option String) (now : String) (e : ℚ)
    (ha : s.active_trade.is_active = true) (he : s.active_trade.entry_price = some e) :
    (∃ ts : TradeSummary,
      (exit_trade s exit_price exit_reason exit_order_id now).1 = some ts ∧
      (s.active_trade.direction = some "long" →
        ts.pnl = round2 ((exit_price - e) * (s.active_trade.quantity : ℚ)) ∧
        ts.pnl_percent = round2 ((exit_price - e) / e * 100)) ∧
      (s.active_trade.direction = some "short" →
        ts.pnl = round2 ((e - exit_price) * (s.active_trade.quantity : ℚ)) ∧
        ts.pnl_percent = round2 ((e - exit_price) / e * 100))) ∧
    (exit_trade s exit_price exit_reason exit_order_id now).2.active_trade.is_active
      = false ∧
    (exit_trade s exit_price exit_reason exit_order_id now).2.active_trade = initTrade ∧
    (exit_trade s exit_price exit_reason exit_order_id now).2.levels_locked = false ∧
    (exit_trade s exit_price exit_reason exit_order_id now).2.support_level = none ∧
    (exit_trade s exit_price exit_reason exit_order_id now).2.resistance_level = none := by
  by_cases hdir : s.active_trade.direction = some "long" <;>
    simp [exit_trade, ha, he, hdir, initTrade]

/-- Witness for C2 (amended): a long trade entered at 100 with
quantity 10 and exited at 103 reports pnl 30 and pnl_percent 3. -/
theorem exit_trade_spec_witness :
    Option.map TradeSummary.pnl
        (exit_trade sampleLong 103 "profit" none "t1").1 = some 30 ∧
    Option.map TradeSummary.pnl_percent
        (exit_trade sampleLong 103 "profit" none "t1").1 = some 3 := by
  obtain ⟨⟨ts, hts, hlong, _⟩, -⟩ :=
    exit_trade_spec sampleLong 103 "profit" none "t1" 100 (by decide)
      (by decide)
  have hd : sampleLong.active_trade.direction = some "long" := by decide
  have hq : sampleLong.active_trade.quantity = 10 := by decide
  obtain ⟨hp, hpc⟩ := hlong hd
  rw [hts]
  rw [hq] at hp
  norm_num [hp, hpc, round2, roundHalfEven]

/-- C4: a successful `enter_trade` locks the levels, and any run of
`update_levels` calls made while locked is a complete no-op (each
returns `False` and changes nothing), so the lock — and the stored
levels — survive until `exit_trade`. -/
theorem levels_locked_until_exit (s : Strategy) (direction : String) (entry_price : ℚ)
    (quantity : ℤ) (order_id : Option String) (now : String)
    (h : s.active_trade.is_active = false) (ops : List StrategyOp)
    (hops : ∀ op ∈ ops, op = StrategyOp.refreshLevels) :
    (enter_trade s direction entry_price quantity order_id now).2.levels_locked = true ∧
    ops.foldl applyOp (enter_trade s direction entry_price quantity order_id now).2
      = (enter_trade s direction entry_price quantity order_id now).2 ∧
    (ops.foldl applyOp (enter_trade s direction entry_price quantity order_id now).2).levels_locked
      = true ∧
    (∀ s' : Strategy, s'.levels_locked = true → update_levels s' = (false, s')) := by
  have hlock : (enter_trade s direction entry_price quantity order_id now).2.levels_locked
      = true := by
    simp [enter_trade, h]
  have hfold := foldl_refreshLevels_of_locked _ hlock ops hops
  exact ⟨hlock, hfold, by rw [hfold]; exact hlock, fun s' h' => update_levels_of_locked s' h'⟩

/-- Witness for C4: two `update_levels` calls after entering a trade
on the scenario instance leave the state exactly as entered. -/
theorem levels_locked_until_exit_witness :
    [StrategyOp.refreshLevels, StrategyOp.refreshLevels].foldl applyOp
        (enter_trade scenarioWithLevels "long" 2520 10 none "t1").2
      = (enter_trade scenarioWithLevels "long" 2520 10 none "t1").2 ∧
    (enter_trade scenarioWithLevels "long" 2520 10 none "t1").2.levels_locked = true := by
  have h := levels_locked_until_exit scenarioWithLevels "long" 2520 10 none "t1"
    (by decide) [StrategyOp.refreshLevels, StrategyOp.refreshLevels]
    (by decide)
  exact ⟨h.2.1, h.1⟩

/-- C10: the direction string is never validated.  `enter_trade`
accepts any direction different from `"long"` (such as `"buy"`),
activates the trade and computes target/stop with the short-direction
formulas; `check_exit_conditions` and `exit_trade` likewise apply the
short-position rules to every stored direction other than `"long"`. -/
theorem direction_never_validated (s : Strategy) (d : String) (hd : d ≠ "long")
    (entry_price exit_price p : ℚ) (quantity : ℤ) (order_id : Option String)
    (exit_reason now : String) :
    (s.active_trade.is_active = false →
      (enter_trade s d entry_price quantity order_id now).1 = true ∧
      (enter_trade s d entry_price quantity order_id now).2.active_trade.is_active = true ∧
      (enter_trade s d entry_price quantity order_id now).2.active_trade.direction = some d ∧
      (enter_trade s d entry_price quantity order_id now).2.active_trade.target_price
        = some (entry_price * (1 - s.profit_target)) ∧
      (enter_trade s d entry_price quantity order_id now).2.active_trade.stop_price
        = some (entry_price * (1 + s.stop_loss))) ∧
    (∀ t st, s.active_trade.is_active = true → s.active_trade.direction = some d →
      s.active_trade.target_price = some t → s.active_trade.stop_price = some st →
      check_exit_conditions s p =
        if p ≤ t then some "profit" else if p ≥ st then some "loss" else none) ∧
    (∀ e, s.active_trade.is_active = true → s.active_trade.direction = some d →
      s.active_trade.entry_price = some e →
      Option.map TradeSummary.pnl
          (exit_trade s exit_price exit_reason order_id now).1
        = some (round2 ((e - exit_price) * (s.active_trade.quantity : ℚ)))) := by
  refine ⟨fun ha => ?_, fun t st ha hdir ht hst => ?_, fun e ha hdir he => ?_⟩
  · simp [enter_trade, ha, hd]
  · have : s.active_trade.direction ≠ some "long" := by simp [hdir, hd]
    simp [check_exit_conditions, ha, ht, hst, this]
  · have : s.active_trade.direction ≠ some "long" := by simp [hdir, hd]
    simp [exit_trade, ha, he, this]

/-- Witness for C10 with the direction string "buy": entry uses the
short formulas (target 97, stop 101 from entry 100) and the stored
"buy" trade is exited with the short P&L rule. -/
theorem direction_never_validated_witness :
    (enter_trade (initStrategy "X" 10 (3/100) (1/100)) "buy" 100 10 none "t0").2.active_trade.target_price
      = some (100 * (1 - (3/100 : ℚ))) ∧
    check_exit_conditions sampleBuy 97 = some "profit" ∧
    Option.map TradeSummary.pnl (exit_trade sampleBuy 97 "profit" none "t1").1
      = some (round2 (((100:ℚ) - 97) * (10 : ℤ))) := by
  have hbuy : ("buy" : String) ≠ "long" := by decide
  refine ⟨?_, ?_, ?_⟩
  · exact ((direction_never_validated (initStrategy "X" 10 (3/100) (1/100)) "buy" hbuy
      100 97 97 10 none "profit" "t0").1 (by decide)).2.2.2.1
  · rw [(direction_never_validated sampleBuy "buy" hbuy 100 97 97 10 none "profit"
        "t0").2.1 (100 * (1 - (3/100 : ℚ))) (100 * (1 + (1/100 : ℚ)))
      (by decide) (by decide)
      (by simp [sampleBuy, enter_trade, initStrategy, initTrade])
      (by simp [sampleBuy, enter_trade, initStrategy, initTrade])]
    norm_num
  · have h := (direction_never_validated sampleBuy "buy" hbuy 100 97 97 10 none
      "profit" "t1").2.2 100 (by decide) (by decide)
      (by decide)
    rw [h]
    simp [sampleBuy, enter_trade, initStrategy, initTrade]

/-- Every single operation preserves the support-below-resistance
ordering of the stored levels. -/
theorem levelsOrdered_applyOp (s : Strategy) (h : levelsOrdered s) (op : StrategyOp) :
    levelsOrdered (applyOp s op) := by
  cases op with
  | ingest hi lo cl ts now =>
      intro su r hsu hr
      simp only [applyOp, add_price_data] at hsu hr
      exact h su r hsu hr
  | refreshLevels =>
      by_cases hl : s.levels_locked = true
      · have heq : applyOp s StrategyOp.refreshLevels = s := by
          simp [applyOp, update_levels_of_locked s hl]
        rw [heq]; exact h
      · have hl' : s.levels_locked = false := by simpa using hl
        rcases hdet : detect_support_resistance s with ⟨_ | su', _ | r'⟩
        · intro su r hsu hr
          simp only [applyOp, update_levels, hl', hdet] at hsu hr
          exact h su r (by simpa using hsu) (by simpa using hr)
        · intro su r hsu hr
          simp only [applyOp, update_levels, hl', hdet] at hsu hr
          exact h su r (by simpa using hsu) (by simpa using hr)
        · intro su r hsu hr
          simp only [applyOp, update_levels, hl', hdet] at hsu hr
          exact h su r (by simpa using hsu) (by simpa using hr)
        · by_cases hord : su' ≥ r'
          · intro su r hsu hr
            simp only [applyOp, update_levels, hl', hdet, hord, if_true] at hsu hr
            exact h su r (by simpa [hord] using hsu) (by simpa [hord] using hr)
          · intro su r hsu hr
            simp only [applyOp, update_levels, hl', hdet, hord, if_false] at hsu hr
            simp [hord] at hsu hr
            subst hsu; subst hr
            exact lt_of_not_ge hord
  | enter d ep q oid now =>
      intro su r hsu hr
      by_cases ha : s.active_trade.is_active = true <;>
        simp only [applyOp, enter_trade] at hsu hr <;>
        simp [ha] at hsu hr <;>
        exact h su r hsu hr
  | exitTrade ep reason oid now =>
      intro su r hsu hr
      by_cases ha : s.active_trade.is_active = true
      · rcases he : s.active_trade.entry_price with _ | e
        · simp only [applyOp, exit_trade, ha, he] at hsu hr
          simp at hsu hr
          exact h su r hsu hr
        · simp only [applyOp, exit_trade, ha, he] at hsu hr
          simp at hsu
      · have ha' : s.active_trade.is_active = false := by simpa using ha
        simp only [applyOp, exit_trade, ha'] at hsu hr
        simp at hsu hr
        exact h su r hsu hr
  | reset =>
      intro su r hsu hr
      simp [applyOp, reset_strategy] at hsu

/-- The ordering invariant holds along any operation sequence. -/
theorem levelsOrdered_foldl (s : Strategy) (h : levelsOrdered s) (ops : List StrategyOp) :
    levelsOrdered (ops.foldl applyOp s) := by
  induction ops generalizing s with
  | nil => exact h
  | cons op rest ih => exact ih _ (levelsOrdered_applyOp s h op)

/-- C5: along every operation sequence from a fresh instance, whenever
both levels are stored, support < resistance; and `update_levels`
returns `True` — storing the detector's pair — exactly when the levels
are unlocked and the detector yields both a support and a resistance
with support < resistance, while in every other case it returns
`False` with the whole state unchanged. -/
theorem refresh_levels_spec (symbol : String) (lookback : ℕ) (pt sl : ℚ)
    (ops : List StrategyOp) :
    levelsOrdered (ops.foldl applyOp (initStrategy symbol lookback pt sl)) ∧
    (∀ s : Strategy,
      ((update_levels s).1 = true ↔
        s.levels_locked = false ∧
        ∃ su r, detect_support_resistance s = (some su, some r) ∧ su < r) ∧
      ((update_levels s).1 = true →
        (update_levels s).2 = { s with
          support_level := (detect_support_resistance s).1,
          resistance_level := (detect_support_resistance s).2 }) ∧
      ((update_levels s).1 = false → (update_levels s).2 = s)) := by
  constructor
  · refine levelsOrdered_foldl _ ?_ ops
    intro su r hsu _
    simp [initStrategy] at hsu
  · intro s
    by_cases hl : s.levels_locked = true
    · rw [update_levels_of_locked s hl]
      simp [hl]
    · have hl' : s.levels_locked = false := by simpa using hl
      rcases hdet : detect_support_resistance s with ⟨_ | su', _ | r'⟩
      · simp [update_levels, hl', hdet]
      · simp [update_levels, hl', hdet]
      · simp [update_levels, hl', hdet]
      · by_cases hord : su' ≥ r'
        · simp [update_levels, hl', hdet, hord]
        · have hlt : su' < r' := lt_of_not_ge hord
          simp [update_levels, hl', hdet, hord, hlt]
          exact ⟨su', r', ⟨rfl, rfl⟩, hlt⟩

/-- Witness for C5: on the scenario instance the detector proposes
(2480, 2515), so `update_levels` succeeds and stores exactly that. -/
theorem refresh_levels_spec_witness :
    (update_levels scenarioStrategy).1 = true ∧
    (update_levels scenarioStrategy).2 = { scenarioStrategy with
      support_level := some 2480, resistance_level := some 2515 } := by
  have h := (refresh_levels_spec "RELIANCE" 10 (3/100) (1/100) []).2 scenarioStrategy
  have h1 : (update_levels scenarioStrategy).1 = true := by decide
  refine ⟨h1, ?_⟩
  rw [h.2.1 h1]
  have hdet : detect_support_resistance scenarioStrategy = (some 2480, some 2515) := by
    decide
  rw [hdet]

/-- The swing-high test at index `i` succeeds exactly on an interior
point strictly higher than both neighbours. -/
theorem swingHighAt_eq_some_iff (w : List PricePoint) (i : ℕ) (x : ℚ) :
    swingHighAt w i = some x ↔
      ∃ a b c, w[i-1]? = some a ∧ w[i]? = some b ∧ w[i+1]? = some c ∧
        b.high > a.high ∧ b.high > c.high ∧ x = b.high := by
  unfold swingHighAt
  rcases h1 : w[i-1]? with _ | a <;> rcases h2 : w[i]? with _ | b <;>
    rcases h3 : w[i+1]? with _ | c <;> simp [h1, h2, h3]
  constructor
  · rintro ⟨⟨hab, hcb⟩, rfl⟩
    exact ⟨hab, hcb, rfl⟩
  · rintro ⟨hab, hcb, rfl⟩
    exact ⟨⟨hab, hcb⟩, rfl⟩

/-- The swing-low test at index `i` succeeds exactly on an interior
point strictly lower than both neighbours. -/
theorem swingLowAt_eq_some_iff (w : List PricePoint) (i : ℕ) (x : ℚ) :
    swingLowAt w i = some x ↔
      ∃ a b c, w[i-1]? = some a ∧ w[i]? = some b ∧ w[i+1]? = some c ∧
        b.low < a.low ∧ b.low < c.low ∧ x = b.low := by
  unfold swingLowAt
  rcases h1 : w[i-1]? with _ | a <;> rcases h2 : w[i]? with _ | b <;>
    rcases h3 : w[i+1]? with _ | c <;> simp [h1, h2, h3]
  constructor
  · rintro ⟨⟨hab, hcb⟩, rfl⟩
    exact ⟨hab, hcb, rfl⟩
  · rintro ⟨hab, hcb, rfl⟩
    exact ⟨⟨hab, hcb⟩, rfl⟩

/-- Membership in the collected swing highs is exactly success of the
swing-high test at some interior index of the window. -/
theorem mem_swingHighs_iff (w : List PricePoint) (x : ℚ) :
    x ∈ swingHighs w ↔
      ∃ i, 1 ≤ i ∧ i + 1 < w.length ∧ swingHighAt w i = some x := by
  unfold swingHighs
  rw [List.mem_filterMap]
  constructor
  · rintro ⟨i, hi, hf⟩
    rw [List.mem_filter, List.mem_range] at hi
    exact ⟨i, by simpa using hi.2, by omega, hf⟩
  · rintro ⟨i, h1, h2, hf⟩
    refine ⟨i, ?_, hf⟩
    rw [List.mem_filter, List.mem_range]
    exact ⟨by omega, by simpa using h1⟩

/-- Membership in the collected swing lows is exactly success of the
swing-low test at some interior index of the window. -/
theorem mem_swingLows_iff (w : List PricePoint) (x : ℚ) :
    x ∈ swingLows w ↔
      ∃ i, 1 ≤ i ∧ i + 1 < w.length ∧ swingLowAt w i = some x := by
  unfold swingLows
  rw [List.mem_filterMap]
  constructor
  · rintro ⟨i, hi, hf⟩
    rw [List.mem_filter, List.mem_range] at hi
    exact ⟨i, by simpa using hi.2, by omega, hf⟩
  · rintro ⟨i, h1, h2, hf⟩
    refine ⟨i, ?_, hf⟩
    rw [List.mem_filter, List.mem_range]
    exact ⟨by omega, by simpa using h1⟩

/-- `List.min?` over rationals returns exactly the least member. -/
theorem rat_min?_eq_some_iff (l : List ℚ) (m : ℚ) :
    l.min? = some m ↔ m ∈ l ∧ ∀ y ∈ l, m ≤ y :=
  @List.min?_eq_some_iff ℚ m _ _ ⟨fun h1 h2 => le_antisymm h1 h2⟩
    (fun a => le_refl a) (fun a b => min_choice a b) (fun _ _ _ => le_min_iff) l

/-- `List.max?` over rationals returns exactly the greatest member. -/
theorem rat_max?_eq_some_iff (l : List ℚ) (m : ℚ) :
    l.max? = some m ↔ m ∈ l ∧ ∀ y ∈ l, y ≤ m :=
  @List.max?_eq_some_iff ℚ m _ _ ⟨fun h1 h2 => le_antisymm h1 h2⟩
    (fun a => le_refl a) (fun a b => max_choice a b) (fun _ _ _ => max_le_iff) l

/-- C7: the detector fails (returning the `(None, None)` encoding of
`InsufficientData`) when the buffer holds fewer than
`lookback_period + 2` points, and otherwise works on the window of the
`lookback_period + 2` most recent points, marking interior indices as
swing highs/lows by strict comparison with both neighbours and
returning the minimum swing low as support and the maximum swing high
as resistance, each absent when no swing was found. -/
theorem detect_support_resistance_spec (s : Strategy) :
    (s.price_data.length < s.lookback_period + 2 →
      detect_support_resistance s = (none, none)) ∧
    (s.lookback_period + 2 ≤ s.price_data.length →
      (s.price_data.drop (s.price_data.length - (s.lookback_period + 2))).length
          = s.lookback_period + 2 ∧
      detect_support_resistance s =
        ((swingLows (s.price_data.drop
            (s.price_data.length - (s.lookback_period + 2)))).min?,
          (swingHighs (s.price_data.drop
            (s.price_data.length - (s.lookback_period + 2)))).max?)) ∧
    (∀ (w : List PricePoint) (x : ℚ),
      (x ∈ swingHighs w ↔ ∃ i, 1 ≤ i ∧ i + 1 < w.length ∧ ∃ a b c,
        w[i-1]? = some a ∧ w[i]? = some b ∧ w[i+1]? = some c ∧
        b.high > a.high ∧ b.high > c.high ∧ x = b.high) ∧
      (x ∈ swingLows w ↔ ∃ i, 1 ≤ i ∧ i + 1 < w.length ∧ ∃ a b c,
        w[i-1]? = some a ∧ w[i]? = some b ∧ w[i+1]? = some c ∧
        b.low < a.low ∧ b.low < c.low ∧ x = b.low)) ∧
    (∀ (l : List ℚ) (m : ℚ),
      (l.min? = none ↔ l = []) ∧ (l.max? = none ↔ l = []) ∧
      (l.min? = some m ↔ m ∈ l ∧ ∀ y ∈ l, m ≤ y) ∧
      (l.max? = some m ↔ m ∈ l ∧ ∀ y ∈ l, y ≤ m)) := by
  refine ⟨fun h => by simp [detect_support_resistance, h], fun h => ?_, ?_, fun l m => ?_⟩
  · refine ⟨by rw [List.length_drop]; omega, ?_⟩
    rw [detect_support_resistance, if_neg (by omega)]
  · intro w x
    constructor
    · rw [mem_swingHighs_iff]
      constructor
      · rintro ⟨i, h1, h2, hf⟩
        exact ⟨i, h1, h2, (swingHighAt_eq_some_iff w i x).1 hf⟩
      · rintro ⟨i, h1, h2, hex⟩
        exact ⟨i, h1, h2, (swingHighAt_eq_some_iff w i x).2 hex⟩
    · rw [mem_swingLows_iff]
      constructor
      · rintro ⟨i, h1, h2, hf⟩
        exact ⟨i, h1, h2, (swingLowAt_eq_some_iff w i x).1 hf⟩
      · rintro ⟨i, h1, h2, hex⟩
        exact ⟨i, h1, h2, (swingLowAt_eq_some_iff w i x).2 hex⟩
  · exact ⟨List.min?_eq_none_iff, List.max?_eq_none_iff,
      rat_min?_eq_some_iff l m, rat_max?_eq_some_iff l m⟩

/-- Witness for C7: the twelve-candle scenario window (lookback 10)
produces support 2480 and resistance 2515 through the swing scan. -/
theorem detect_support_resistance_spec_witness :
    detect_support_resistance scenarioStrategy =
      ((swingLows (scenarioStrategy.price_data.drop
          (scenarioStrategy.price_data.length - (scenarioStrategy.lookback_period + 2)))).min?,
        (swingHighs (scenarioStrategy.price_data.drop
          (scenarioStrategy.price_data.length - (scenarioStrategy.lookback_period + 2)))).max?) ∧
    detect_support_resistance scenarioStrategy = (some 2480, some 2515) := by
  refine ⟨((detect_support_resistance_spec scenarioStrategy).2.1 (by decide)).2, by decide⟩

/-- Appending to a buffer already capped at its last `N` elements and
re-capping gives the cap of the whole appended history. -/
theorem cap_append {α : Type _} (L : List α) (p : α) (N : ℕ) :
    (if (L.drop (L.length - N) ++ [p]).length > N
     then (L.drop (L.length - N) ++ [p]).drop
        ((L.drop (L.length - N) ++ [p]).length - N)
     else L.drop (L.length - N) ++ [p])
      = (L ++ [p]).drop ((L ++ [p]).length - N) := by
  have hM : (L ++ [p]).drop (L.length - N) = L.drop (L.length - N) ++ [p] := by
    rw [List.drop_append_eq_append_drop]
    have h : L.length - N - L.length = 0 := by omega
    rw [h, List.drop_zero]
  rw [← hM]
  by_cases hL : N ≤ L.length
  · rw [if_pos]
    · rw [List.drop_drop]
      congr 1
      simp only [List.length_drop, List.length_append, List.length_singleton]
      omega
    · simp only [List.length_drop, List.length_append, List.length_singleton]
      omega
  · rw [if_neg]
    · congr 1
      simp only [List.length_append, List.length_singleton]
      omega
    · simp only [List.length_drop, List.length_append, List.length_singleton]
      omega

/-- While ingesting a run of points, the buffer stays the `50`-cap of
the full appended history. -/
theorem ingest_buffer (s0 : Strategy) (pts L : List PricePoint)
    (hmax : s0.max_data_points = 50) (hbuf : s0.price_data = L.drop (L.length - 50)) :
    ((pts.map ingestOf).foldl applyOp s0).max_data_points = 50 ∧
    ((pts.map ingestOf).foldl applyOp s0).price_data
      = (L ++ pts).drop ((L ++ pts).length - 50) := by
  induction pts generalizing s0 L with
  | nil => simpa using ⟨hmax, hbuf⟩
  | cons p rest ih =>
      simp only [List.map_cons, List.foldl_cons]
      have hstep_max : (applyOp s0 (ingestOf p)).max_data_points = 50 := by
        simp [applyOp, ingestOf, add_price_data, hmax]
      have hstep : (applyOp s0 (ingestOf p)).price_data
          = (L ++ [p]).drop ((L ++ [p]).length - 50) := by
        simp only [applyOp, ingestOf, add_price_data, hmax, hbuf, Option.getD_some]
        exact cap_append L p 50
      have hres := ih (applyOp s0 (ingestOf p)) (L ++ [p]) hstep_max hstep
      simpa [List.append_assoc] using hres

/-- C8: for every sequence of ingested points on a fresh instance, the
buffer length never exceeds 50, and the buffer is exactly the 50 most
recently ingested points in their original relative order (the whole
sequence while 50 or fewer have been ingested). -/
theorem buffer_fifo (symbol : String) (lookback : ℕ) (pt sl : ℚ)
    (pts : List PricePoint) :
    ((pts.map ingestOf).foldl applyOp (initStrategy symbol lookback pt sl)).price_data.length
      ≤ 50 ∧
    ((pts.map ingestOf).foldl applyOp (initStrategy symbol lookback pt sl)).price_data
      = pts.drop (pts.length - 50) := by
  have h := ingest_buffer (initStrategy symbol lookback pt sl) pts [] rfl
    (by simp [initStrategy])
  have h2 : ((pts.map ingestOf).foldl applyOp (initStrategy symbol lookback pt sl)).price_data
      = pts.drop (pts.length - 50) := by simpa using h.2
  exact ⟨by rw [h2, List.length_drop]; omega, h2⟩
